import Mathlib

/-!
# Verification of the MCP stdio/WebSocket pipe bridge

Shallow embedding of `pi_client/moyurobot/mcp/pipe.py` (class `MCPPipe`):
configuration loading (`load_config`), command resolution
(`build_server_command`), the reconnect loop with exponential backoff
(`connect_with_retry`), the inbound relay pump
(`_pipe_websocket_to_process`) and the target dispatcher (`run`).

Python-level conventions used throughout:
* JSON objects are association lists; a JSON `null` value for a server
  entry is `Option.none`.
* Python truthiness on optional strings (`x or d`, `if not x`) is modelled
  by `pyOrStr` / `pyTruthy`: both `None` and the empty string are falsy.
* Exceptions raised by `build_server_command` become the `Except` error
  constructors of `BuildError`, one per distinct `RuntimeError` message.
-/

namespace MCPPipe

/-- Python `a or d` on an optional string: `None` and `""` are falsy. -/
def pyOrStr (a : Option String) (d : String) : String :=
  match a with
  | some s => if s = "" then d else s
  | none => d

/-- Python truthiness filter on an optional string: returns the string
only when it is present and non-empty (`if not x: ...` takes the other
branch). -/
def pyTruthy (a : Option String) : Option String :=
  match a with
  | some s => if s = "" then none else some s
  | none => none

/-- One `mcpServers` entry of the JSON configuration file.  Absent JSON
fields are `none` / the listed defaults; `disabled` is the JSON boolean
with absence meaning `false`. -/
structure ServerEntry where
  disabled : Bool := false
  type? : Option String := none
  transportType? : Option String := none
  command? : Option String := none
  args : List String := []
  url? : Option String := none
  headers : List (String × String) := []
  env : List (String × String) := []
  deriving Repr, DecidableEq

/-- The parsed configuration file: its `mcpServers` mapping
(`cfg.get("mcpServers", {})`).  An empty `Config` models the empty JSON
object `{}`. -/
structure Config where
  mcpServers : List (String × Option ServerEntry) := []
  deriving Repr, DecidableEq

/-- Python `servers[target] or {}`: a JSON-null entry is replaced by the
empty object, i.e. a `ServerEntry` with all defaults. -/
def entryOrEmpty (v : Option ServerEntry) : ServerEntry :=
  match v with
  | some e => e
  | none => {}

/-- Python dict assignment `env[k] = v`: override an existing binding in
place, otherwise append. -/
def setEnv (env : List (String × String)) (k v : String) :
    List (String × String) :=
  if env.any (fun p => p.1 == k) then
    env.map (fun p => if p.1 == k then (k, v) else p)
  else env ++ [(k, v)]

/-- `child_env = os.environ.copy()` followed by
`for k, v in (entry.get("env") or \x7b\x7d).items(): child_env[k] = v`. -/
def mergeEnv (osEnv overrides : List (String × String)) :
    List (String × String) :=
  overrides.foldl (fun acc kv => setEnv acc kv.1 kv.2) osEnv

/-- Python `str.lower()` on the ASCII transport-type strings this code
compares against, written over the character list so that it reduces. -/
def asciiLower (s : String) : String :=
  String.mk (s.data.map Char.toLower)

/-- `typ = (entry.get("type") or entry.get("transportType") or "stdio").lower()`. -/
def entryType (e : ServerEntry) : String :=
  asciiLower (pyOrStr e.type? (pyOrStr e.transportType? "stdio"))

/-- The distinct `RuntimeError`s raised by `build_server_command`, plus
nothing else: resolution is otherwise total. -/
inductive BuildError where
  | disabled (target : String)
  | missingCommand (target : String)
  | missingUrl (target : String) (typ : String)
  | unsupportedType (typ : String)
  | notFoundScript (target : String)
  deriving Repr, DecidableEq

/-- `MCPPipe.build_server_command` (pipe.py lines 66-116).  Parameters
model the ambient effects: `fs` is `os.path.exists`, `pyExe` is
`sys.executable`, `osEnv` is `os.environ`.  `servers` is the snapshot's
`mcpServers` mapping. -/
def build_server_command (fs : String → Bool) (pyExe : String)
    (osEnv : List (String × String))
    (servers : List (String × Option ServerEntry)) (target : String) :
    Except BuildError (List String × List (String × String)) :=
  match servers.lookup target with
  | some v =>
    let entry := entryOrEmpty v
    if entry.disabled then
      .error (.disabled target)
    else
      let typ := entryType entry
      let child_env := mergeEnv osEnv entry.env
      if typ = "stdio" then
        match pyTruthy entry.command? with
        | none => .error (.missingCommand target)
        | some command => .ok (command :: entry.args, child_env)
      else if typ = "sse" ∨ typ = "http" ∨ typ = "streamablehttp" then
        match pyTruthy entry.url? with
        | none => .error (.missingUrl target typ)
        | some url =>
          let cmd := [pyExe, "-m", "mcp_proxy"]
          let cmd := if typ = "http" ∨ typ = "streamablehttp" then
              cmd ++ ["--transport", "streamablehttp"]
            else cmd
          let cmd := entry.headers.foldl
            (fun c h => c ++ ["-H", h.1, h.2]) cmd
          .ok (cmd ++ [url], child_env)
      else
        .error (.unsupportedType typ)
  | none =>
    if fs target then .ok ([pyExe, target], osEnv)
    else .error (.notFoundScript target)

/-- `MCPPipe.load_config` (pipe.py lines 47-64).  `fs` is
`os.path.exists`; `read` is `json.load` on the opened file, returning
`none` on any parse/read exception; `cwd` is `os.getcwd()`; `cache` is
the instance field `self._config`.  Returns the snapshot, the updated
cache, and whether the source file was opened and read on this call.
Every branch returns normally: the function never propagates an
exception to its caller. -/
def load_config (fs : String → Bool) (read : String → Option Config)
    (cwd : String) (config_path : Option String) (cache : Option Config) :
    Config × Option Config × Bool :=
  match cache with
  | some c => (c, some c, false)
  | none =>
    let path := pyOrStr config_path (cwd ++ "/mcp_config.json")
    if fs path then
      match read path with
      | some c => (c, some c, true)
      | none => ({}, some {}, true)
    else
      ({}, some {}, false)

/-! ## Reconnect loop with exponential backoff (`connect_with_retry`) -/

/-- `INITIAL_BACKOFF = 1` (pipe.py line 28), in seconds. -/
def INITIAL_BACKOFF : Nat := 1

/-- `MAX_BACKOFF = 600` (pipe.py line 29), in seconds. -/
def MAX_BACKOFF : Nat := 600

/-- The two local variables of `connect_with_retry`'s loop. -/
structure RetryState where
  reconnect_attempt : Nat
  backoff : Nat
  deriving Repr, DecidableEq

/-- `reconnect_attempt = 0; backoff = INITIAL_BACKOFF` (lines 120-121). -/
def initialRetryState : RetryState :=
  { reconnect_attempt := 0, backoff := INITIAL_BACKOFF }

/-- The `except` block of `connect_with_retry` (lines 131-134): runs on
every exception escaping `_connect_to_server`, whatever its kind. -/
def failStep (s : RetryState) : RetryState :=
  { reconnect_attempt := s.reconnect_attempt + 1,
    backoff := min (s.backoff * 2) MAX_BACKOFF }

/-- The sleep performed at the top of a loop iteration (lines 125-127):
only when at least one failure has already happened, and then for the
current `backoff`. -/
def sleepBeforeIteration (s : RetryState) : Option Nat :=
  if s.reconnect_attempt > 0 then some s.backoff else none

/-- Loop state after `n` consecutive failed connection attempts: `n`
applications of the `except` block to the initial state. -/
def stateAfterFailures : Nat → RetryState
  | 0 => initialRetryState
  | n + 1 => failStep (stateAfterFailures n)

/-- Outcome of one execution of the `try` body: either
`_connect_to_server` returned normally, or it raised (connection drop,
spawn failure, resolution error, pump error alike). -/
inductive Outcome where
  | success
  | failure
  deriving Repr, DecidableEq

/-- Effect of one loop iteration on the state: the `except` block fires
exactly on `failure`; nothing in the loop body writes the counters on a
normal return, so `success` leaves the state unchanged. -/
def stepOutcome (o : Outcome) (s : RetryState) : RetryState :=
  match o with
  | .success => s
  | .failure => failStep s

/-- Loop state reached from `s` after the iterations described by `l`. -/
def runFrom (s : RetryState) : List Outcome → RetryState
  | [] => s
  | o :: rest => runFrom (stepOutcome o s) rest

/-- Loop state reached from the start of `connect_with_retry` after the
iterations described by `l`. -/
def stateAfter (l : List Outcome) : RetryState :=
  runFrom initialRetryState l

/-! ## Ordering of effects inside one connection attempt
(`_connect_to_server`, lines 136-161) -/

/-- Externally visible effects of one `_connect_to_server` call, in
program order. -/
inductive BridgeEvent where
  | channelOpen
  | processSpawn (cmd : List String)
  | raiseConfigError (e : BuildError)
  | raiseChannelError
  | relayRun
  deriving Repr, DecidableEq

/-- Effect trace of `_connect_to_server` up to the start of the relay:
`websockets.connect` first (line 140); only under the open channel does
it call `build_server_command` (line 144), and only on a successful
resolution does `subprocess.Popen` run (line 145), after which the three
pumps are gathered (lines 157-161). -/
def connect_to_server_trace (channelOk : Bool)
    (resolve : Except BuildError (List String × List (String × String))) :
    List BridgeEvent :=
  if channelOk then
    BridgeEvent.channelOpen ::
      (match resolve with
       | .error e => [BridgeEvent.raiseConfigError e]
       | .ok (cmd, _) => [BridgeEvent.processSpawn cmd, BridgeEvent.relayRun])
  else
    [BridgeEvent.raiseChannelError]

/-- Whether this `_connect_to_server` call raises before the relay
starts (channel failure, or resolution failure under an open channel). -/
def connectRaisesEarly (channelOk : Bool)
    (resolve : Except BuildError (List String × List (String × String))) :
    Bool :=
  !channelOk || resolve.isOk = false

/-- One full iteration of the `while True` loop of `connect_with_retry`:
the optional sleep, the effect trace of the connection attempt, and the
state the loop continues with (the loop body has no `break` or `return`,
so it always continues).  Any raise — a channel error or a configuration
error alike — lands in the same `except` block. -/
def retryIteration (channelOk : Bool)
    (resolve : Except BuildError (List String × List (String × String)))
    (s : RetryState) :
    Option Nat × List BridgeEvent × RetryState :=
  (sleepBeforeIteration s,
   connect_to_server_trace channelOk resolve,
   if connectRaisesEarly channelOk resolve then failStep s else s)

/-! ## Inbound pump (`_pipe_websocket_to_process`, lines 178-194) -/

/-- A message delivered by `websocket.recv()`: `str` or `bytes`. -/
inductive WsMessage where
  | text (s : String)
  | bytes (b : ByteArray)

/-- The process's stdin as seen by the pump: the unflushed buffer, the
sequence of flushed chunks actually delivered to the process, and the
closed flag. -/
structure Stdin where
  buffer : String
  delivered : List String
  closed : Bool

/-- `process.stdin.write(s)`: appends to the buffer. -/
def stdinWrite (st : Stdin) (s : String) : Stdin :=
  { st with buffer := st.buffer ++ s }

/-- `process.stdin.flush()`: delivers the buffered text to the process. -/
def stdinFlush (st : Stdin) : Stdin :=
  { buffer := "", delivered := st.delivered ++ [st.buffer], closed := st.closed }

/-- `process.stdin.close()`. -/
def stdinClose (st : Stdin) : Stdin :=
  { st with closed := true }

/-- Lines 185-186: a `bytes` message is decoded before use.  `dec`
models `bytes.decode("utf-8")`, the runtime's UTF-8 decoder. -/
def recvText (dec : ByteArray → String) (m : WsMessage) : String :=
  match m with
  | .text s => s
  | .bytes b => dec b

/-- The `while True` body of the pump (lines 181-188) over the sequence
of messages the channel delivers before it closes or the pump fails:
for each message, `write(message + '\n')` then `flush()`. -/
def pumpLoop (dec : ByteArray → String) (msgs : List WsMessage)
    (st : Stdin) : Stdin :=
  match msgs with
  | [] => st
  | m :: rest =>
    let message := recvText dec m
    pumpLoop dec rest (stdinFlush (stdinWrite st (message ++ "\n")))

/-- `MCPPipe._pipe_websocket_to_process`: runs the pump loop on a fresh
stdin, then the `finally` block (lines 192-194) closes stdin if it is
not already closed. -/
def pipe_websocket_to_process (dec : ByteArray → String)
    (msgs : List WsMessage) : Stdin :=
  let final := pumpLoop dec msgs { buffer := "", delivered := [], closed := false }
  if !final.closed then stdinClose final else final

/-! ## Target dispatcher (`run`, lines 228-255) -/

/-- Observable outcome of one `run` call: what was logged as skipped,
whether the no-enabled-servers `RuntimeError` was raised, whether the
usage error path called `sys.exit(1)`, and which targets got a
`connect_with_retry` session started. -/
structure RunOutcome where
  skippedLogged : List String := []
  raisedNoEnabled : Bool := false
  usageExit : Bool := false
  sessionsStarted : List String := []
  deriving Repr, DecidableEq

/-- The multi-target enabled list (line 239):
`[name for name, entry in servers_cfg.items() if not (entry or \x7b\x7d).get("disabled")]`. -/
def enabledNames (servers : List (String × Option ServerEntry)) :
    List String :=
  (servers.filter (fun p => (entryOrEmpty p.2).disabled = false)).map (·.1)

/-- `MCPPipe.run` (lines 228-255).  `fs` is `os.path.exists`; `cfg` is
the snapshot `load_config` returned; `target` is the optional argument
(`if not target` also treats an empty string as absent). -/
def run (fs : String → Bool) (cfg : Config) (target : Option String) :
    RunOutcome :=
  match pyTruthy target with
  | none =>
    let servers_cfg := cfg.mcpServers
    let all_servers := servers_cfg.map (·.1)
    let enabled := enabledNames servers_cfg
    let skipped := all_servers.filter (fun name => !(enabled.contains name))
    if enabled.isEmpty then
      { skippedLogged := skipped, raisedNoEnabled := true }
    else
      { skippedLogged := skipped, sessionsStarted := enabled }
  | some t =>
    if fs t then
      { sessionsStarted := [t] }
    else
      { usageExit := true }

/-! ## Helper lemmas -/

/-- Doubling a capped value and re-capping is capping the doubled value. -/
theorem min_double_cap (a : Nat) :
    min (min a MAX_BACKOFF * 2) MAX_BACKOFF = min (a * 2) MAX_BACKOFF := by
  simp only [MAX_BACKOFF]
  omega

/-- Closed form of the loop state after `n` consecutive failures. -/
theorem stateAfterFailures_eq (n : Nat) :
    stateAfterFailures n =
      { reconnect_attempt := n, backoff := min (2 ^ n) MAX_BACKOFF } := by
  induction n with
  | zero =>
    simp [stateAfterFailures, initialRetryState, INITIAL_BACKOFF, MAX_BACKOFF]
  | succ n ih =>
    simp only [stateAfterFailures, ih, failStep]
    rw [RetryState.mk.injEq]
    exact ⟨rfl, by simpa [pow_succ] using min_double_cap (2 ^ n)⟩

/-- Running the loop over concatenated outcome lists composes. -/
theorem runFrom_append (s : RetryState) (l1 l2 : List Outcome) :
    runFrom s (l1 ++ l2) = runFrom (runFrom s l1) l2 := by
  induction l1 generalizing s with
  | nil => rfl
  | cons o rest ih => simp [runFrom, ih]

/-- As long as the backoff is below the cap (an invariant of the loop),
iterations never decrease the attempt counter or the backoff, and the
cap is preserved. -/
theorem runFrom_monotone (l : List Outcome) (s : RetryState)
    (hcap : s.backoff ≤ MAX_BACKOFF) :
    s.reconnect_attempt ≤ (runFrom s l).reconnect_attempt
    ∧ s.backoff ≤ (runFrom s l).backoff
    ∧ (runFrom s l).backoff ≤ MAX_BACKOFF := by
  induction l generalizing s with
  | nil => exact ⟨Nat.le_refl _, Nat.le_refl _, hcap⟩
  | cons o rest ih =>
    cases o with
    | success => exact ih s hcap
    | failure =>
      have hcap2 : (failStep s).backoff ≤ MAX_BACKOFF := by
        simp only [failStep, MAX_BACKOFF]
        omega
      obtain ⟨h1, h2, h3⟩ := ih (failStep s) hcap2
      refine ⟨?_, ?_, h3⟩
      · exact le_trans (Nat.le_succ _) h1
      · refine le_trans ?_ h2
        simp only [failStep, MAX_BACKOFF] at *
        omega

/-- The pump loop, started on an empty buffer, delivers exactly one
flushed line per received message, in order. -/
theorem pumpLoop_spec (dec : ByteArray → String) (msgs : List WsMessage)
    (st : Stdin) (hbuf : st.buffer = "") :
    pumpLoop dec msgs st =
      { buffer := "",
        delivered := st.delivered ++ msgs.map (fun m => recvText dec m ++ "\n"),
        closed := st.closed } := by
  induction msgs generalizing st with
  | nil =>
    simp only [pumpLoop, List.map_nil, List.append_nil]
    cases st
    simp_all
  | cons m rest ih =>
    simp only [pumpLoop]
    rw [ih _ (by simp [stdinFlush])]
    simp [stdinFlush, stdinWrite, hbuf]

/-- Folding the header flags onto a non-empty initial command is the
initial command followed by the flags folded onto the empty command. -/
theorem headerFold_eq (hs : List (String × String)) (base : List String) :
    hs.foldl (fun c h => c ++ ["-H", h.1, h.2]) base
      = base ++ hs.foldl (fun c h => c ++ ["-H", h.1, h.2]) [] := by
  induction hs generalizing base with
  | nil => simp
  | cons h rest ih =>
    simp only [List.foldl_cons]
    rw [ih (base ++ _), ih ([] ++ _)]
    simp

/-- A falsy optional string makes `pyOrStr` take its default. -/
theorem pyOrStr_of_falsy (a : Option String) (d : String)
    (h : pyTruthy a = none) : pyOrStr a d = d := by
  cases a with
  | none => rfl
  | some s =>
    simp only [pyTruthy] at h
    by_cases hs : s = "" <;> simp [pyOrStr, hs] at h ⊢

/-! ## Claim theorems -/

/-- C1, counterexample: the claim says the delay slept before the n-th
retry is `min(1 * 2^(n-1), 600)`, so 1 second before the first retry;
but the `except` block doubles `backoff` before the first sleep ever
happens, so the loop sleeps 2 seconds before retry 1 and the value
`min(1 * 2^(1-1), 600) = 1` is never slept. -/
theorem C1_claim_counterexample :
    sleepBeforeIteration (stateAfterFailures 1)
      ≠ some (min (1 * 2 ^ (1 - 1)) 600) := by
  decide

/-- C1, amended: the delay slept before the n-th retry (n ≥ 1) of one
uninterrupted failure streak is `min(1 * 2^n, 600)` — the sequence
2, 4, 8, …, capped at 600 — and it never decreases within the streak. -/
theorem C1_backoff_delay (n : Nat) (h : 1 ≤ n) :
    sleepBeforeIteration (stateAfterFailures n) = some (min (1 * 2 ^ n) 600)
    ∧ (stateAfterFailures n).backoff ≤ (stateAfterFailures (n + 1)).backoff := by
  constructor
  · rw [stateAfterFailures_eq]
    simp only [sleepBeforeIteration, MAX_BACKOFF, one_mul, gt_iff_lt]
    rw [if_pos (by omega : 0 < n)]
  · rw [stateAfterFailures_eq, stateAfterFailures_eq]
    simp only [MAX_BACKOFF]
    have h2 : 2 ^ n ≤ 2 ^ (n + 1) := Nat.pow_le_pow_right (by omega) (by omega)
    omega

/-- C1 witness: before the first retry the loop sleeps
`min(1 * 2^1, 600) = 2` seconds, and the delay does not decrease at the
next retry. -/
theorem C1_backoff_delay_witness :
    1 ≤ 1
    ∧ (sleepBeforeIteration (stateAfterFailures 1) = some (min (1 * 2 ^ 1) 600)
       ∧ (stateAfterFailures 1).backoff ≤ (stateAfterFailures (1 + 1)).backoff) :=
  ⟨by decide, C1_backoff_delay 1 (by decide)⟩

/-- C8: across a reconnecting session's whole life, whatever the
interleaving of successful and failing iterations, the attempt counter
and the current backoff never decrease, and an iteration that ends in
success leaves both untouched (no reset on success). -/
theorem C8_no_reset_on_success (l1 l2 : List Outcome) :
    (stateAfter l1).reconnect_attempt ≤ (stateAfter (l1 ++ l2)).reconnect_attempt
    ∧ (stateAfter l1).backoff ≤ (stateAfter (l1 ++ l2)).backoff
    ∧ stateAfter (l1 ++ [Outcome.success]) = stateAfter l1 := by
  have hinv : (stateAfter l1).backoff ≤ MAX_BACKOFF := by
    have h0 : initialRetryState.backoff ≤ MAX_BACKOFF := by decide
    exact (runFrom_monotone l1 initialRetryState h0).2.2
  refine ⟨?_, ?_, ?_⟩
  · simp only [stateAfter, runFrom_append]
    exact (runFrom_monotone l2 (runFrom initialRetryState l1) hinv).1
  · simp only [stateAfter, runFrom_append]
    exact (runFrom_monotone l2 (runFrom initialRetryState l1) hinv).2.1
  · simp only [stateAfter, runFrom_append]
    rfl

/-- C2, counterexample: for the concrete target `"bad"` configured with
a JSON-null entry (a local-command entry with no command at all), the
connection attempt opens the channel first and only then raises the
missing-command configuration error — so the error is not raised before
a channel is opened; and the reconnect loop's `except` block catches it
and moves the loop to the backoff state, whose next iteration sleeps
2 seconds and attempts again — so the target is retried. -/
theorem C2_claim_counterexample :
    connect_to_server_trace true
        (build_server_command (fun _ => false) "python" [] [("bad", none)] "bad")
      = [BridgeEvent.channelOpen,
         BridgeEvent.raiseConfigError (BuildError.missingCommand "bad")]
    ∧ (retryIteration true
        (build_server_command (fun _ => false) "python" [] [("bad", none)] "bad")
        initialRetryState).2.2
      = { reconnect_attempt := 1, backoff := 2 }
    ∧ sleepBeforeIteration { reconnect_attempt := 1, backoff := 2 } = some 2 := by
  exact ⟨rfl, rfl, rfl⟩

/-- C2, amended: every configuration-resolution failure is raised before
any process is spawned, but only after the channel has been opened
(`_connect_to_server` connects the WebSocket first and resolves the
command inside it); and it does trigger the reconnect/backoff policy:
the loop's `except` block treats it like any connection error, so a
target whose resolution fails is retried with backoff indefinitely. -/
theorem C2_config_error_timing
    (resolve : Except BuildError (List String × List (String × String)))
    (e : BuildError) (s : RetryState) (h : resolve = .error e) :
    connect_to_server_trace true resolve
      = [BridgeEvent.channelOpen, BridgeEvent.raiseConfigError e]
    ∧ (∀ cmd, BridgeEvent.processSpawn cmd ∉ connect_to_server_trace true resolve)
    ∧ (retryIteration true resolve s).2.2 = failStep s := by
  subst h
  refine ⟨rfl, ?_, rfl⟩
  intro cmd hmem
  simp [connect_to_server_trace] at hmem

/-- C2 witness: the amended behavior at the concrete `"bad"` target
whose entry is missing its command, from the initial loop state. -/
theorem C2_config_error_timing_witness :
    connect_to_server_trace true
        (Except.error (BuildError.missingCommand "bad"))
      = [BridgeEvent.channelOpen,
         BridgeEvent.raiseConfigError (BuildError.missingCommand "bad")]
    ∧ (∀ cmd, BridgeEvent.processSpawn cmd ∉
        connect_to_server_trace true
          (Except.error (BuildError.missingCommand "bad")))
    ∧ (retryIteration true (Except.error (BuildError.missingCommand "bad"))
        initialRetryState).2.2 = failStep initialRetryState :=
  C2_config_error_timing (Except.error (BuildError.missingCommand "bad"))
    (BuildError.missingCommand "bad") initialRetryState rfl

/-- C3, counterexample: the script `"s.py"` exists on disk and is also a
key of the configuration whose entry is disabled.  `run` does start
exactly one session for it, but that session's command resolution looks
the target up in the configuration first and honours the disabled flag:
it fails with the disabled error, and flipping only the disabled flag
changes the resolution result — so the enabled flags are consulted
during that run, refuting the claim. -/
theorem C3_claim_counterexample :
    run (fun s => s == "s.py")
        { mcpServers := [("s.py", some { disabled := true, command? := some "python3" })] }
        (some "s.py")
      = { sessionsStarted := ["s.py"] }
    ∧ build_server_command (fun s => s == "s.py") "python" []
        [("s.py", some { disabled := true, command? := some "python3" })] "s.py"
      = .error (.disabled "s.py")
    ∧ build_server_command (fun s => s == "s.py") "python" []
        [("s.py", some { disabled := false, command? := some "python3" })] "s.py"
      ≠ .error (.disabled "s.py") := by
  refine ⟨rfl, rfl, ?_⟩
  intro hcontra
  have hok : build_server_command (fun s => s == "s.py") "python" []
      [("s.py", some { disabled := false, command? := some "python3" })] "s.py"
      = .ok (["python3"], []) := rfl
  rw [hok] at hcontra
  exact Except.noConfusion hcontra

/-- C3, amended: given an explicit non-empty target argument naming a
script path that exists on disk, `run` starts exactly one reconnecting
session for that path and consults nothing else; but the session's
command resolution checks the configuration before the path fallback,
so the configuration's flags are bypassed only when the path is not
also a configured server name, in which case resolution yields the
interpreter plus the script path, untouched by any enabled flag. -/
theorem C3_explicit_script_path (fs : String → Bool) (pyExe : String)
    (osEnv : List (String × String)) (cfg : Config) (t : String)
    (hfs : fs t = true) (hne : t ≠ "") :
    run fs cfg (some t) = { sessionsStarted := [t] }
    ∧ (cfg.mcpServers.lookup t = none →
        build_server_command fs pyExe osEnv cfg.mcpServers t
          = .ok ([pyExe, t], osEnv)) := by
  constructor
  · simp [run, pyTruthy, hne, hfs]
  · intro hlook
    simp [build_server_command, hlook, hfs]

/-- C3 witness: the amended behavior for the existing script `"a.py"`
that is not a key of the configuration. -/
theorem C3_explicit_script_path_witness :
    run (fun s => s == "a.py")
        { mcpServers := [("srv", some { command? := some "node" })] }
        (some "a.py")
      = { sessionsStarted := ["a.py"] }
    ∧ ((({ mcpServers := [("srv", some { command? := some "node" })] } :
          Config).mcpServers).lookup "a.py" = none →
        build_server_command (fun s => s == "a.py") "python" [("E", "2")]
          ({ mcpServers := [("srv", some { command? := some "node" })] } :
            Config).mcpServers "a.py"
          = .ok (["python", "a.py"], [("E", "2")])) :=
  C3_explicit_script_path (fun s => s == "a.py") "python" [("E", "2")]
    { mcpServers := [("srv", some { command? := some "node" })] } "a.py"
    rfl (by decide)

/-- C4: for every sequence of messages the channel delivers, the inbound
pump flushes into the process exactly one line per message — the
message text followed by exactly one newline — in the order of receipt,
leaves nothing buffered, and has closed the process's stdin when it
stops. -/
theorem C4_inbound_pump (dec : ByteArray → String) (msgs : List WsMessage) :
    (pipe_websocket_to_process dec msgs).delivered
        = msgs.map (fun m => recvText dec m ++ "\n")
    ∧ (pipe_websocket_to_process dec msgs).closed = true
    ∧ (pipe_websocket_to_process dec msgs).buffer = "" := by
  have hloop := pumpLoop_spec dec msgs
    { buffer := "", delivered := [], closed := false } rfl
  simp only [pipe_websocket_to_process, hloop]
  simp [stdinClose]

/-- C9: a `bytes` message is decoded (by the runtime UTF-8 decoder
`dec`) before the newline is appended and the line is written, so a
bytes message and the equal decoded text message produce identical
writes to the process's stdin, in any surrounding message sequence. -/
theorem C9_bytes_decoded_like_text (dec : ByteArray → String)
    (pre post : List WsMessage) (b : ByteArray) :
    pipe_websocket_to_process dec (pre ++ WsMessage.bytes b :: post)
      = pipe_websocket_to_process dec (pre ++ WsMessage.text (dec b) :: post) := by
  have h1 := pumpLoop_spec dec (pre ++ WsMessage.bytes b :: post)
    { buffer := "", delivered := [], closed := false } rfl
  have h2 := pumpLoop_spec dec (pre ++ WsMessage.text (dec b) :: post)
    { buffer := "", delivered := [], closed := false } rfl
  simp only [pipe_websocket_to_process, h1, h2]
  simp [recvText]

/-- C5: for a matched proxied-url entry with a URL configured, the
resolved argv is the proxy invocation, then the streaming-mode flag
pair exactly when the transport sub-kind is an http-stream variant
(`http`/`streamablehttp`) and nothing when it is the event-stream kind
(`sse`), then one `-H name value` group per extra header, and the URL
as the final argument; resolution is a pure function of its input. -/
theorem C5_proxied_url_argv (fs : String → Bool) (pyExe : String)
    (osEnv : List (String × String))
    (servers : List (String × Option ServerEntry)) (target u : String)
    (e : ServerEntry)
    (hlook : servers.lookup target = some (some e))
    (hdis : e.disabled = false)
    (htyp : entryType e = "sse" ∨ entryType e = "http"
            ∨ entryType e = "streamablehttp")
    (hurl : pyTruthy e.url? = some u) :
    build_server_command fs pyExe osEnv servers target =
      .ok ([pyExe, "-m", "mcp_proxy"]
        ++ (if entryType e = "http" ∨ entryType e = "streamablehttp"
            then ["--transport", "streamablehttp"] else [])
        ++ e.headers.foldl (fun c h => c ++ ["-H", h.1, h.2]) []
        ++ [u],
        mergeEnv osEnv e.env) := by
  have hstdio : ¬ entryType e = "stdio" := by
    rcases htyp with h | h | h <;> rw [h] <;> decide
  simp only [build_server_command, hlook, entryOrEmpty, hdis,
    Bool.false_eq_true, if_false]
  rw [if_neg hstdio, if_pos htyp]
  simp only [hurl]
  rw [headerFold_eq]
  by_cases hv : entryType e = "http" ∨ entryType e = "streamablehttp" <;>
    simp [hv, List.append_assoc]

/-- C5 witness: a concrete event-stream entry with one extra header
resolves to the proxy invocation without the streaming-mode flags, the
header group, and the URL last. -/
theorem C5_proxied_url_argv_witness :
    build_server_command (fun _ => false) "python" [("A", "1")]
        [("s", some { type? := some "sse", url? := some "https://h/x",
                      headers := [("Authorization", "Bearer t")] })] "s"
      = .ok (["python", "-m", "mcp_proxy",
              "-H", "Authorization", "Bearer t", "https://h/x"],
             [("A", "1")]) := by
  have h := C5_proxied_url_argv (fun _ => false) "python" [("A", "1")]
    [("s", some { type? := some "sse", url? := some "https://h/x",
                  headers := [("Authorization", "Bearer t")] })] "s" "https://h/x"
    { type? := some "sse", url? := some "https://h/x",
      headers := [("Authorization", "Bearer t")] }
    rfl rfl (Or.inl rfl) rfl
  exact h.trans (by rfl)

/-- C6: when `run` is called without a target and no configured entry is
enabled, it raises the no-enabled-servers error immediately, starts zero
sessions, performs no usage exit, and every (disabled) entry is only
logged as skipped. -/
theorem C6_no_enabled_targets (fs : String → Bool) (cfg : Config)
    (h : enabledNames cfg.mcpServers = []) :
    run fs cfg none =
      { skippedLogged := cfg.mcpServers.map (·.1),
        raisedNoEnabled := true, usageExit := false,
        sessionsStarted := [] } := by
  simp only [run, pyTruthy, h]
  simp

/-- C6 witness: a configuration whose only entry is disabled makes `run`
raise the no-enabled-servers error, log the entry as skipped, and start
no session. -/
theorem C6_no_enabled_targets_witness :
    enabledNames
        ({ mcpServers := [("a", some { disabled := true })] } : Config).mcpServers
      = []
    ∧ run (fun _ => false) { mcpServers := [("a", some { disabled := true })] } none
      = { skippedLogged := ["a"], raisedNoEnabled := true,
          usageExit := false, sessionsStarted := [] } :=
  ⟨by decide,
   C6_no_enabled_targets (fun _ => false)
     { mcpServers := [("a", some { disabled := true })] } (by decide)⟩

/-- C7: `load_config` never propagates an exception (it is a total
function into snapshots); a missing configuration file and any parse
failure both yield the empty snapshot; and a second call returns the
snapshot memoized by the first call without touching the source again. -/
theorem C7_load_config_total (fs : String → Bool)
    (read : String → Option Config) (cwd : String)
    (config_path : Option String) (cache : Option Config) :
    (load_config (fun _ => false) read cwd config_path none).1 = ({} : Config)
    ∧ (load_config fs (fun _ => none) cwd config_path none).1 = ({} : Config)
    ∧ load_config fs read cwd config_path
        (load_config fs read cwd config_path cache).2.1
      = ((load_config fs read cwd config_path cache).1,
         (load_config fs read cwd config_path cache).2.1, false) := by
  refine ⟨rfl, ?_, ?_⟩
  · by_cases hfs : fs (pyOrStr config_path (cwd ++ "/mcp_config.json")) <;>
      simp [load_config, hfs]
  · cases cache with
    | some c => rfl
    | none =>
      by_cases hfs : fs (pyOrStr config_path (cwd ++ "/mcp_config.json"))
      · cases hread : read (pyOrStr config_path (cwd ++ "/mcp_config.json")) <;>
          simp [load_config, hfs, hread]
      · simp [load_config, hfs]

/-- C10: a JSON-null entry, and an entry lacking both the `type` and the
`transportType` fields, are resolved as stdio entries; lacking a command
as well, resolution fails with the missing-command error — not with an
unsupported-type error and not through the script-path fallback, since
the result is this error for every filesystem predicate `fs`. -/
theorem C10_null_entry_stdio_default (fs : String → Bool) (pyExe : String)
    (osEnv : List (String × String))
    (servers : List (String × Option ServerEntry)) (target : String)
    (e : ServerEntry) :
    (servers.lookup target = some none →
      build_server_command fs pyExe osEnv servers target
        = .error (.missingCommand target))
    ∧ (servers.lookup target = some (some e) → e.disabled = false →
       pyTruthy e.type? = none → pyTruthy e.transportType? = none →
       pyTruthy e.command? = none →
       build_server_command fs pyExe osEnv servers target
         = .error (.missingCommand target)) := by
  constructor
  · intro hlook
    simp only [build_server_command, hlook]
    rfl
  · intro hlook hdis ht1 ht2 hcmd
    have htyp : entryType e = "stdio" := by
      simp only [entryType, pyOrStr_of_falsy _ _ ht2, pyOrStr_of_falsy _ _ ht1]
      rfl
    simp only [build_server_command, hlook, entryOrEmpty, hdis,
      Bool.false_eq_true, if_false]
    rw [if_pos htyp]
    simp only [hcmd]

/-- C10 witness: both shapes at concrete configurations — a null entry
and an explicit empty-object entry — fail with the missing-command
error even though the target also exists as a file. -/
theorem C10_null_entry_stdio_default_witness :
    build_server_command (fun _ => true) "python" [] [("a", none)] "a"
      = .error (.missingCommand "a")
    ∧ build_server_command (fun _ => true) "python" [] [("b", some {})] "b"
      = .error (.missingCommand "b") :=
  ⟨(C10_null_entry_stdio_default (fun _ => true) "python" [] [("a", none)] "a" {}).1
     rfl,
   (C10_null_entry_stdio_default (fun _ => true) "python" [] [("b", some {})] "b" {}).2
     rfl rfl rfl rfl rfl⟩

end MCPPipe
